import Mathlib

/-!
Verification of the mesh placement / coloring / export core of the HOOD
visualization utility (`utils/show.py`).

Modelling conventions:
* NumPy float64 values are modelled as exact rationals (`ℚ`); where IEEE
  non-finite results matter (`adjust_color` dividing by a zero maximum) a
  dedicated scalar type `NpVal` with `nan`/`±inf` constructors is used.
* A NumPy array of shape `frames × vertices × 3` is a `List (List Vec3)`;
  a face row is a triple of natural-number vertex indices.
* NumPy reductions over empty arrays raise, and missing dictionary keys
  raise `KeyError`; both are modelled with `Option` / `Except String`.
-/

namespace HoodShow

/-- One 3-D vertex position; field `y` is coordinate index 1 (the "up" axis
of `place_meshes`), `x` index 0 and `z` index 2. -/
structure Vec3 where
  x : ℚ
  y : ℚ
  z : ℚ
deriving DecidableEq, Repr

/-- The per-vertex update done by `place_meshes`: `pos[..., 1] -= min_z`,
`pos[..., 0] += x_shift`, `pos[..., 2] += y_shift`. -/
def shiftVec (xShift yShift minZ : ℚ) (v : Vec3) : Vec3 :=
  ⟨v.x + xShift, v.y - minZ, v.z + yShift⟩

/-- NumPy `.min()` over a list of scalars: `none` on an empty array
(NumPy raises there). -/
def npMin : List ℚ → Option ℚ
  | [] => none
  | a :: t => some (t.foldl min a)

/-- `place_meshes(cloth_pos, obstacle_pos, x_shift, y_shift)` from
`utils/show.py` lines 22-46.  `cloth_pos` is a frames × vertices array; the
optional `obstacle_pos` likewise.  With an obstacle,
`min_z = min(obstacle_pos[:, :, 1].min(), cloth_pos[0, :, 1].min())`;
without, `min_z = cloth_pos[0, :, 1].min() - 2`.  Then axis 1 of every
frame of cloth (and obstacle, when present) is lowered by `min_z` and the
horizontal axes are shifted.  `none` models the NumPy error raised when the
cloth has no frame 0 / the arrays are empty. -/
def placeMeshes (clothPos : List (List Vec3)) (obstaclePos : Option (List (List Vec3)))
    (xShift yShift : ℚ) : Option (List (List Vec3) × Option (List (List Vec3))) := do
  let minZ ← match obstaclePos with
    | some op => do
      let obsMin ← npMin ((op.flatten).map Vec3.y)
      let f0 ← clothPos.head?
      let clothMin ← npMin (f0.map Vec3.y)
      pure (min obsMin clothMin)
    | none => do
      let f0 ← clothPos.head?
      let clothMin ← npMin (f0.map Vec3.y)
      pure (clothMin - 2)
  let newCloth := clothPos.map (fun fr => fr.map (shiftVec xShift yShift minZ))
  let newObstacle := obstaclePos.map (fun op => op.map (fun fr => fr.map (shiftVec xShift yShift minZ)))
  pure (newCloth, newObstacle)

/-! ### IEEE-style scalars for `adjust_color`

`adjust_color` can divide by a zero maximum; NumPy then produces NaN with a
`RuntimeWarning` but does not raise.  `NpVal` models a float64 value as an
exact rational or one of the non-finite values, with the IEEE behaviour of
the four operations `adjust_color` uses (sign of zero is not modelled; it
does not affect any of the inputs considered here). -/

inductive NpVal where
  | nan : NpVal
  | pinf : NpVal
  | ninf : NpVal
  | fin : ℚ → NpVal
deriving DecidableEq, Repr

/-- IEEE addition on `NpVal` (`color += 0.3`). -/
def nadd : NpVal → NpVal → NpVal
  | .nan, _ => .nan
  | _, .nan => .nan
  | .pinf, .ninf => .nan
  | .ninf, .pinf => .nan
  | .pinf, _ => .pinf
  | _, .pinf => .pinf
  | .ninf, _ => .ninf
  | _, .ninf => .ninf
  | .fin a, .fin b => .fin (a + b)

/-- IEEE multiplication on `NpVal` (`color *= 0.3`). -/
def nmul : NpVal → NpVal → NpVal
  | .nan, _ => .nan
  | _, .nan => .nan
  | .pinf, .pinf => .pinf
  | .pinf, .ninf => .ninf
  | .ninf, .pinf => .ninf
  | .ninf, .ninf => .pinf
  | .pinf, .fin b => if b = 0 then .nan else if 0 < b then .pinf else .ninf
  | .fin a, .pinf => if a = 0 then .nan else if 0 < a then .pinf else .ninf
  | .ninf, .fin b => if b = 0 then .nan else if 0 < b then .ninf else .pinf
  | .fin a, .ninf => if a = 0 then .nan else if 0 < a then .ninf else .pinf
  | .fin a, .fin b => .fin (a * b)

/-- IEEE division on `NpVal` (`color /= color.max(...)`): `0/0` is NaN,
`a/0` for `a ≠ 0` is a signed infinity, finite-by-infinite is zero. -/
def ndiv : NpVal → NpVal → NpVal
  | .nan, _ => .nan
  | _, .nan => .nan
  | .pinf, .pinf => .nan
  | .pinf, .ninf => .nan
  | .ninf, .pinf => .nan
  | .ninf, .ninf => .nan
  | .pinf, .fin b => if 0 ≤ b then .pinf else .ninf
  | .ninf, .fin b => if 0 ≤ b then .ninf else .pinf
  | .fin _, .pinf => .fin 0
  | .fin _, .ninf => .fin 0
  | .fin a, .fin b =>
    if b = 0 then (if a = 0 then .nan else if 0 < a then .pinf else .ninf)
    else .fin (a / b)

/-- NumPy `maximum.reduce` step (`color[..., :3].max(axis=-1)`): NaN
propagates, otherwise the larger value. -/
def nmax : NpVal → NpVal → NpVal
  | .nan, _ => .nan
  | _, .nan => .nan
  | .pinf, _ => .pinf
  | _, .pinf => .pinf
  | .ninf, b => b
  | a, .ninf => a
  | .fin a, .fin b => .fin (max a b)

/-- An RGBA colour as handed to `adjust_color`: one float64 per channel. -/
structure Color where
  r : NpVal
  g : NpVal
  b : NpVal
  a : NpVal
deriving DecidableEq, Repr

/-- `adjust_color(color)` from `utils/show.py` lines 49-58: the first three
channels are divided by their maximum, multiplied by `0.3` and raised by
`0.3`; the alpha channel is untouched. -/
def adjustColor (c : Color) : Color :=
  let m := nmax (nmax c.r c.g) c.b
  ⟨nadd (nmul (ndiv c.r m) (.fin 0.3)) (.fin 0.3),
   nadd (nmul (ndiv c.g m) (.fin 0.3)) (.fin 0.3),
   nadd (nmul (ndiv c.b m) (.fin 0.3)) (.fin 0.3),
   c.a⟩

/-! ### Decimal formatting for the OBJ exporter -/

/-- The decimal digit character for `d < 10`. -/
def digitChar (d : ℕ) : Char := Char.ofNat (48 + d)

/-- Little-endian decimal digits; the fuel argument is an upper bound on the
number to keep the recursion structural. -/
def digitsRevAux : ℕ → ℕ → List ℕ
  | 0, _ => []
  | fuel + 1, n => if n = 0 then [] else n % 10 :: digitsRevAux fuel (n / 10)

/-- Little-endian decimal digits of `n` (empty for `0`). -/
def digitsRev (n : ℕ) : List ℕ := digitsRevAux n n

/-- Decimal rendering of a natural number, as Python's `str`. -/
def natStr (n : ℕ) : String :=
  if n = 0 then "0" else String.mk ((digitsRev n).reverse.map digitChar)

/-- Left-pad a string with `'0'` to width `w`, as Python's `:04` /
fraction-padding formats. -/
def zpad (w : ℕ) (s : String) : String :=
  String.mk (List.replicate (w - s.length) '0') ++ s

/-- Python's `f"{q:.6f}"` on the rational model: round `q · 10^6` to the
nearest integer and print it with exactly six digits after the point. -/
def fmt6 (q : ℚ) : String :=
  let n : ℤ := round (q * 1000000)
  let sgn := if n < 0 then "-" else ""
  let m := n.natAbs
  sgn ++ natStr (m / 1000000) ++ "." ++ zpad 6 (natStr (m % 1000000))

/-- One `v x y z` line of a frame file (`f.write(f"v {v[0]:.6f} ...")`). -/
def vertexLine (v : Vec3) : String :=
  "v " ++ fmt6 v.x ++ " " ++ fmt6 v.y ++ " " ++ fmt6 v.z ++ "\n"

/-- One `f i j k` line of a frame file: the three zero-based vertex indices
shifted by `+1` (`f.write(f"f {int(face[0]+1)} ...")`). -/
def faceLine (f : ℕ × ℕ × ℕ) : String :=
  "f " ++ natStr (f.1 + 1) ++ " " ++ natStr (f.2.1 + 1) ++ " " ++ natStr (f.2.2 + 1) ++ "\n"

/-- The lines written into one frame file: all vertex lines, then all face
lines. -/
def objFrameLines (verts : List Vec3) (faces : List (ℕ × ℕ × ℕ)) : List String :=
  verts.map vertexLine ++ faces.map faceLine

/-- The full text of one frame file. -/
def objFrameContent (verts : List Vec3) (faces : List (ℕ × ℕ × ℕ)) : String :=
  String.join (objFrameLines verts faces)

/-- `os.path.join(output_dir, f"{basename}_{i:04}.obj")`. -/
def frameFileName (outputDir basename : String) (i : ℕ) : String :=
  outputDir ++ "/" ++ basename ++ "_" ++ zpad 4 (natStr i) ++ ".obj"

/-- `export_animated_mesh_to_obj_sequence(mesh, output_dir, basename)` from
`utils/show.py` lines 135-157, as the list of `(file name, file content)`
pairs it writes, in write order (frame `0`, frame `1`, ...). -/
def exportAnimatedMeshToObjSequence (vertsSeq : List (List Vec3))
    (faces : List (ℕ × ℕ × ℕ)) (outputDir basename : String) : List (String × String) :=
  (vertsSeq.enum).map (fun p => (frameFileName outputDir basename p.1, objFrameContent p.2 faces))

/-- Ambient run-dependent state (clock, process id) that a non-deterministic
exporter could consult.  The source writes file contents derived only from
the input arrays and string literals, never from such state. -/
structure RunEnv where
  wallClockTime : ℕ
  processId : ℕ
deriving DecidableEq

/-- One run of the exporter in ambient state `env`.  The body is the
environment-independent `exportAnimatedMeshToObjSequence`; `env` is unused
because no statement in the export loop reads a clock, a process id or any
other run-dependent datum. -/
def exportRun (_env : RunEnv) (vertsSeq : List (List Vec3))
    (faces : List (ℕ × ℕ × ℕ)) (outputDir basename : String) : List (String × String) :=
  exportAnimatedMeshToObjSequence vertsSeq faces outputDir basename

/-! ### The sequence builder `add_seq` -/

/-- A face array as stored in the rollout dictionary: NumPy integer array of
`ndim` 2 (static topology) or 3 (one face set per frame). -/
inductive FacesArr where
  | d2 (fs : List (ℕ × ℕ × ℕ)) : FacesArr
  | d3 (fss : List (List (ℕ × ℕ × ℕ))) : FacesArr
deriving DecidableEq, Repr

/-- A face array after `add_seq`'s normalization, as handed to `Meshes`:
indexing a 2-dim array with `[0]` yields a single face row, indexing a
3-dim array yields a 2-dim face set; a 3-dim array can also be passed
through unnormalized. -/
inductive FacesNorm where
  | row (f : ℕ × ℕ × ℕ) : FacesNorm
  | faces (fs : List (ℕ × ℕ × ℕ)) : FacesNorm
  | frames (fss : List (List (ℕ × ℕ × ℕ))) : FacesNorm
deriving DecidableEq, Repr

/-- `arr[0]` on a face array; `none` models the NumPy `IndexError` on an
empty leading axis. -/
def indexFirst : FacesArr → Option FacesNorm
  | .d2 fs => (fs.head?).map FacesNorm.row
  | .d3 fss => (fss.head?).map FacesNorm.faces

/-- A face array passed to `Meshes` without indexing. -/
def asNorm : FacesArr → FacesNorm
  | .d2 fs => .faces fs
  | .d3 fss => .frames fss

/-- The rollout dictionary `traj_dict` as `add_seq` reads it: keys `pred`
and `cloth_faces` are always read (the model makes them required fields);
`obstacle` and `obstacle_faces` are optional keys, `none` meaning the key
is absent. -/
structure TrajDict where
  pred : List (List Vec3)
  cloth_faces : FacesArr
  obstacle : Option (List (List Vec3))
  obstacle_faces : Option FacesArr

/-- One renderable mesh object as `add_seq` builds it: the `Meshes(...)`
constructor arguments plus the `backface_culling = False` assignment. -/
structure MeshObj where
  name : String
  vertices : List (List Vec3)
  faces : FacesNorm
  color : Color
  backface_culling : Bool
deriving DecidableEq

/-- Python's f-string rendering of the optional `name` argument
(`f"{name}_cloth"` renders `None` as the text `None`). -/
def optName : Option String → String
  | none => "None"
  | some s => s

/-- Turn an optional value into an `Except`, the error naming the Python
exception the source would raise at that point. -/
def liftOpt {α : Type} (msg : String) : Option α → Except String α
  | some a => .ok a
  | none => .error msg

/-- The `cloth_color` default: `(0., 0.3, 0.3, cloth_opacity)` when the
caller passed `None`. -/
def defaultClothColor (c : Option Color) (clothOpacity : ℚ) : Color :=
  match c with
  | none => ⟨.fin 0, .fin 0.3, .fin 0.3, .fin clothOpacity⟩
  | some c0 => c0

/-- `add_seq` from `utils/show.py` lines 61-115, with the `pickle_load`
already performed (the loaded dictionary is the `td` argument).
`obstacle = 'obstacle_faces' in traj_dict`; when that key exists the
`'obstacle'` key is also read (`KeyError` when absent).  When
`len(cloth_faces.shape) == 3` frame 0 of the cloth faces is taken, and —
only then — frame 0 of the obstacle faces as well.  `place_meshes` and
`adjust_color` are then applied and the cloth mesh (and the obstacle mesh,
when present) returned.  `place_meshes` called with a `some` obstacle always
returns a `some` obstacle on success, so the impossible `some (_, none)`
shape is mapped to the same error as a NumPy failure. -/
def addSeq (td : TrajDict) (xShift yShift : ℚ) (clothColor : Option Color)
    (name : Option String) (obstacleOpacity clothOpacity : ℚ) :
    Except String (List MeshObj) :=
  match td.obstacle_faces with
  | some obstacleFacesArr =>
    match liftOpt "KeyError: obstacle" td.obstacle with
    | .error e => .error e
    | .ok obstaclePos =>
      let normed : Except String (FacesNorm × FacesNorm) :=
        match td.cloth_faces with
        | .d3 fss =>
          match liftOpt "IndexError: cloth_faces[0]" ((fss.head?).map FacesNorm.faces) with
          | .error e => .error e
          | .ok cf =>
            match liftOpt "IndexError: obstacle_faces[0]" (indexFirst obstacleFacesArr) with
            | .error e => .error e
            | .ok ofn => .ok (cf, ofn)
        | .d2 fs => .ok (FacesNorm.faces fs, asNorm obstacleFacesArr)
      match normed with
      | .error e => .error e
      | .ok (clothFacesN, obstacleFacesN) =>
        match placeMeshes td.pred (some obstaclePos) xShift yShift with
        | some (pos2, some obstaclePos2) =>
          let cc := adjustColor (defaultClothColor clothColor clothOpacity)
          .ok [⟨optName name ++ "_cloth", pos2, clothFacesN, cc, false⟩,
               ⟨optName name ++ "_obstacle", obstaclePos2, obstacleFacesN,
                ⟨.fin 0.3, .fin 0.3, .fin 0.3, .fin obstacleOpacity⟩, false⟩]
        | _ => .error "numpy error in place_meshes"
  | none =>
    let normedC : Except String FacesNorm :=
      match td.cloth_faces with
      | .d3 fss => liftOpt "IndexError: cloth_faces[0]" ((fss.head?).map FacesNorm.faces)
      | .d2 fs => .ok (FacesNorm.faces fs)
    match normedC with
    | .error e => .error e
    | .ok clothFacesN =>
      match placeMeshes td.pred none xShift yShift with
      | some (pos2, _) =>
        let cc := adjustColor (defaultClothColor clothColor clothOpacity)
        .ok [⟨optName name ++ "_cloth", pos2, clothFacesN, cc, false⟩]
      | none => .error "numpy error in place_meshes"

/-- A concrete rollout with per-frame cloth and obstacle face arrays, used
to exercise `addSeq`'s frame-0 normalization. -/
def trajDictA : TrajDict :=
  ⟨[[⟨0,1,0⟩]], .d3 [[(0,1,2)], [(9,9,9)]], some [[⟨0,0,0⟩]], some (.d3 [[(3,4,5)], [(7,7,7)]])⟩

/-- A concrete rollout holding an `obstacle` key but no `obstacle_faces`
key. -/
def trajDictB : TrajDict :=
  ⟨[[⟨0,1,0⟩]], .d2 [(0,1,2)], some [[⟨0,0,0⟩]], none⟩

/-- A concrete rollout holding an `obstacle_faces` key but no `obstacle`
key. -/
def trajDictC : TrajDict :=
  ⟨[[⟨0,1,0⟩]], .d2 [(0,1,2)], none, some (.d2 [(3,4,5)])⟩

/-! ### Helper lemmas about `npMin` -/

theorem foldl_min_pull (t : List ℚ) : ∀ x b : ℚ, t.foldl min (min x b) = min x (t.foldl min b) := by
  induction t with
  | nil => intro x b; rfl
  | cons c t ih =>
    intro x b
    show t.foldl min (min (min x b) c) = min x (t.foldl min (min b c))
    rw [min_assoc, ih]

theorem npMin_append (l1 l2 : List ℚ) (m1 m2 : ℚ)
    (h1 : npMin l1 = some m1) (h2 : npMin l2 = some m2) :
    npMin (l1 ++ l2) = some (min m1 m2) := by
  cases l1 with
  | nil => simp [npMin] at h1
  | cons a t1 =>
    cases l2 with
    | nil => simp [npMin] at h2
    | cons b t2 =>
      simp only [npMin, Option.some.injEq] at h1 h2
      show npMin (a :: (t1 ++ b :: t2)) = some (min m1 m2)
      simp only [npMin, Option.some.injEq]
      rw [List.foldl_append]
      show t2.foldl min (min (t1.foldl min a) b) = min m1 m2
      rw [h1, foldl_min_pull, h2]

theorem foldl_min_sub (t : List ℚ) :
    ∀ a c : ℚ, (t.map (fun q => q - c)).foldl min (a - c) = t.foldl min a - c := by
  induction t with
  | nil => intro a c; rfl
  | cons b t ih =>
    intro a c
    show (t.map _).foldl min (min (a - c) (b - c)) = t.foldl min (min a b) - c
    rw [min_sub_sub_right, ih]

theorem npMin_map_sub (l : List ℚ) (c : ℚ) :
    npMin (l.map (fun q => q - c)) = (npMin l).map (fun q => q - c) := by
  cases l with
  | nil => rfl
  | cons a t =>
    simp only [npMin, List.map_cons, Option.map_some']
    rw [foldl_min_sub]

theorem placed_ups (fr : List Vec3) (xShift yShift mz : ℚ) :
    (fr.map (shiftVec xShift yShift mz)).map Vec3.y = (fr.map Vec3.y).map (fun q => q - mz) := by
  simp [List.map_map, shiftVec, Function.comp]

/-! ### C1 and C2: the placement transform -/

/-- C1: on a cloth-only input (`obstacle_pos is None`), `place_meshes` uses
`floor_offset = cloth_pos[0, :, 1].min() - 2`, subtracts it from the up
coordinate of every frame (frame 0's minimum only, regardless of later
frames), and the resulting frame 0 has minimum up coordinate exactly 2. -/
theorem c1_cloth_only_floor_offset
    (clothPos : List (List Vec3)) (f0 : List Vec3) (m xShift yShift : ℚ)
    (h0 : clothPos.head? = some f0) (hm : npMin (f0.map Vec3.y) = some m) :
    placeMeshes clothPos none xShift yShift =
      some (clothPos.map (fun fr => fr.map (shiftVec xShift yShift (m - 2))), none) ∧
    ((clothPos.map (fun fr => fr.map (shiftVec xShift yShift (m - 2)))).head?).map
        (fun fr => npMin (fr.map Vec3.y)) = some (some 2) := by
  constructor
  · simp [placeMeshes, h0, hm]
  · rw [List.head?_map, h0, Option.map_some', Option.map_some', placed_ups,
      npMin_map_sub, hm, Option.map_some']
    norm_num

/-- Witness for C1 on the spec's own example (frame-0 up values 1, 5, 3; a
later frame dips to −7): floor offset −1, new frame-0 minimum 2. -/
theorem c1_witness :
    ([[(⟨0,1,0⟩ : Vec3), ⟨0,5,0⟩, ⟨0,3,0⟩], [⟨0,-7,0⟩]].head? = some [(⟨0,1,0⟩ : Vec3), ⟨0,5,0⟩, ⟨0,3,0⟩]) ∧
    npMin ([(⟨0,1,0⟩ : Vec3), ⟨0,5,0⟩, ⟨0,3,0⟩].map Vec3.y) = some 1 ∧
    (placeMeshes [[⟨0,1,0⟩, ⟨0,5,0⟩, ⟨0,3,0⟩], [⟨0,-7,0⟩]] none 5 7 =
      some ([[⟨0,1,0⟩, ⟨0,5,0⟩, ⟨0,3,0⟩], [⟨0,-7,0⟩]].map
          (fun fr => fr.map (shiftVec 5 7 ((1 : ℚ) - 2))), none) ∧
     (([[(⟨0,1,0⟩ : Vec3), ⟨0,5,0⟩, ⟨0,3,0⟩], [⟨0,-7,0⟩]].map
          (fun fr => fr.map (shiftVec 5 7 ((1 : ℚ) - 2)))).head?).map
        (fun fr => npMin (fr.map Vec3.y)) = some (some 2)) :=
  ⟨rfl, by norm_num [npMin],
   c1_cloth_only_floor_offset _ _ _ _ _ rfl (by norm_num [npMin])⟩

/-- C2: with an obstacle present, `place_meshes` uses
`floor_offset = min(obstacle_pos[:, :, 1].min(), cloth_pos[0, :, 1].min())`,
subtracts it from the up coordinates of both cloth and obstacle, and the
minimum up value over cloth frame 0 together with all obstacle frames is
exactly 0 afterwards. -/
theorem c2_obstacle_floor_offset
    (clothPos obsPos : List (List Vec3)) (f0 : List Vec3) (mo mc xShift yShift : ℚ)
    (h0 : clothPos.head? = some f0)
    (hmo : npMin ((obsPos.flatten).map Vec3.y) = some mo)
    (hmc : npMin (f0.map Vec3.y) = some mc) :
    placeMeshes clothPos (some obsPos) xShift yShift =
      some (clothPos.map (fun fr => fr.map (shiftVec xShift yShift (min mo mc))),
            some (obsPos.map (fun fr => fr.map (shiftVec xShift yShift (min mo mc))))) ∧
    npMin (((f0.map (shiftVec xShift yShift (min mo mc))).map Vec3.y) ++
           (((obsPos.map (fun fr => fr.map (shiftVec xShift yShift (min mo mc)))).flatten).map
              Vec3.y)) = some 0 := by
  have hmo2 : npMin ((obsPos.map (List.map Vec3.y)).flatten) = some mo := by
    rw [← List.map_flatten]; exact hmo
  constructor
  · simp [placeMeshes, h0, hmo2, hmc]
  · have hobs : ((obsPos.map (fun fr => fr.map (shiftVec xShift yShift (min mo mc)))).flatten).map
        Vec3.y = ((obsPos.flatten).map Vec3.y).map (fun q => q - min mo mc) := by
      rw [← List.map_flatten, placed_ups]
    rw [hobs, placed_ups]
    have h1 : npMin ((f0.map Vec3.y).map (fun q => q - min mo mc)) = some (mc - min mo mc) := by
      rw [npMin_map_sub, hmc, Option.map_some']
    have h2 : npMin (((obsPos.flatten).map Vec3.y).map (fun q => q - min mo mc)) =
        some (mo - min mo mc) := by
      rw [npMin_map_sub, hmo, Option.map_some']
    rw [npMin_append _ _ _ _ h1 h2, min_sub_sub_right, min_comm mc mo, sub_self]

/-- Witness for C2: cloth frame 0 has minimum up 3, the obstacle dips to 1;
the floor offset is 1 and the placed global minimum up value is 0. -/
theorem c2_witness :
    ([[(⟨0,3,0⟩ : Vec3)], [⟨0,9,0⟩]].head? = some [(⟨0,3,0⟩ : Vec3)]) ∧
    npMin ((([[(⟨0,1,0⟩ : Vec3)], [⟨0,4,0⟩]] : List (List Vec3)).flatten).map Vec3.y) = some 1 ∧
    npMin ([(⟨0,3,0⟩ : Vec3)].map Vec3.y) = some 3 ∧
    (placeMeshes [[⟨0,3,0⟩], [⟨0,9,0⟩]] (some [[⟨0,1,0⟩], [⟨0,4,0⟩]]) 5 7 =
      some ([[⟨0,3,0⟩], [⟨0,9,0⟩]].map (fun fr => fr.map (shiftVec 5 7 (min (1 : ℚ) 3))),
            some ([[⟨0,1,0⟩], [⟨0,4,0⟩]].map (fun fr => fr.map (shiftVec 5 7 (min (1 : ℚ) 3))))) ∧
     npMin ((([(⟨0,3,0⟩ : Vec3)].map (shiftVec 5 7 (min (1 : ℚ) 3))).map Vec3.y) ++
            ((([[(⟨0,1,0⟩ : Vec3)], [⟨0,4,0⟩]].map
                (fun fr => fr.map (shiftVec 5 7 (min (1 : ℚ) 3)))).flatten).map Vec3.y)) = some 0) :=
  ⟨rfl, by norm_num [npMin], by norm_num [npMin],
   c2_obstacle_floor_offset _ _ _ _ _ _ _ rfl (by norm_num [npMin]) (by norm_num [npMin])⟩

/-! ### C3, C4, C5, C9: the color adjuster -/

/-- Evaluation of `adjust_color` on finite channels with a non-zero
maximum: divide by the maximum, scale by 0.3, raise by 0.3. -/
theorem adjustColor_fin (qr qg qb qa : ℚ) (hM : max (max qr qg) qb ≠ 0) :
    adjustColor ⟨.fin qr, .fin qg, .fin qb, .fin qa⟩ =
      ⟨.fin (qr / max (max qr qg) qb * 0.3 + 0.3),
       .fin (qg / max (max qr qg) qb * 0.3 + 0.3),
       .fin (qb / max (max qr qg) qb * 0.3 + 0.3),
       .fin qa⟩ := by
  simp [adjustColor, nmax, ndiv, nmul, nadd, hM]

/-- C3: the code contains no degenerate-input check.  On the all-zero RGB
input `(0, 0, 0, 1.0)` `adjust_color` divides `0/0`, which NumPy answers
with NaN (a `RuntimeWarning`, not an exception), and returns a NaN-valued
colour instead of raising. -/
theorem c3_all_zero_rgb_yields_nan :
    adjustColor ⟨.fin 0, .fin 0, .fin 0, .fin 1⟩ = ⟨.nan, .nan, .nan, .fin 1⟩ := by
  simp [adjustColor, nmax, ndiv, nmul, nadd]

/-- C4: `adjust_color` divides the first three channels by their maximum,
multiplies by 0.3, adds 0.3 and passes alpha through; on `(2, 4, 4, 1.0)`
it returns `(0.45, 0.6, 0.6, 1.0)`. -/
theorem c4_adjust_color_formula (qr qg qb qa : ℚ) (hM : max (max qr qg) qb ≠ 0) :
    adjustColor ⟨.fin qr, .fin qg, .fin qb, .fin qa⟩ =
      ⟨.fin (qr / max (max qr qg) qb * 0.3 + 0.3),
       .fin (qg / max (max qr qg) qb * 0.3 + 0.3),
       .fin (qb / max (max qr qg) qb * 0.3 + 0.3),
       .fin qa⟩ ∧
    (∀ c : Color, (adjustColor c).a = c.a) ∧
    adjustColor ⟨.fin 2, .fin 4, .fin 4, .fin 1⟩ = ⟨.fin 0.45, .fin 0.6, .fin 0.6, .fin 1⟩ := by
  refine ⟨adjustColor_fin qr qg qb qa hM, fun c => rfl, ?_⟩
  rw [adjustColor_fin 2 4 4 1 (by norm_num)]
  norm_num [max_def]

/-- Witness for C4 at `(2, 4, 4, 1.0)`. -/
theorem c4_witness :
    (max (max (2 : ℚ) 4) 4 ≠ 0) ∧
    (adjustColor ⟨.fin 2, .fin 4, .fin 4, .fin 1⟩ =
      ⟨.fin (2 / max (max (2 : ℚ) 4) 4 * 0.3 + 0.3),
       .fin (4 / max (max (2 : ℚ) 4) 4 * 0.3 + 0.3),
       .fin (4 / max (max (2 : ℚ) 4) 4 * 0.3 + 0.3),
       .fin 1⟩ ∧
    (∀ c : Color, (adjustColor c).a = c.a) ∧
    adjustColor ⟨.fin 2, .fin 4, .fin 4, .fin 1⟩ = ⟨.fin 0.45, .fin 0.6, .fin 0.6, .fin 1⟩) :=
  ⟨by norm_num, c4_adjust_color_formula 2 4 4 1 (by norm_num)⟩

/-- C5: on non-negative, not-all-zero RGB channels, every adjusted colour
channel lands in the closed interval `[0.3, 0.6]`. -/
theorem c5_adjusted_channels_in_range
    (qr qg qb qa : ℚ) (hr : 0 ≤ qr) (hg : 0 ≤ qg) (hb : 0 ≤ qb)
    (hnz : ¬(qr = 0 ∧ qg = 0 ∧ qb = 0)) :
    ∃ r g b : ℚ,
      adjustColor ⟨.fin qr, .fin qg, .fin qb, .fin qa⟩ = ⟨.fin r, .fin g, .fin b, .fin qa⟩ ∧
      0.3 ≤ r ∧ r ≤ 0.6 ∧ 0.3 ≤ g ∧ g ≤ 0.6 ∧ 0.3 ≤ b ∧ b ≤ 0.6 := by
  have hrM : qr ≤ max (max qr qg) qb := le_trans (le_max_left qr qg) (le_max_left _ qb)
  have hgM : qg ≤ max (max qr qg) qb := le_trans (le_max_right qr qg) (le_max_left _ qb)
  have hbM : qb ≤ max (max qr qg) qb := le_max_right _ qb
  have hM0 : 0 ≤ max (max qr qg) qb := le_trans hr hrM
  have hMpos : 0 < max (max qr qg) qb := by
    rcases eq_or_lt_of_le hM0 with h | h
    · exfalso
      exact hnz ⟨le_antisymm (h ▸ hrM) hr, le_antisymm (h ▸ hgM) hg, le_antisymm (h ▸ hbM) hb⟩
    · exact h
  have key : ∀ q : ℚ, 0 ≤ q → q ≤ max (max qr qg) qb →
      (0.3 : ℚ) ≤ q / max (max qr qg) qb * 0.3 + 0.3 ∧
      q / max (max qr qg) qb * 0.3 + 0.3 ≤ 0.6 := by
    intro q hq hqM
    have h1 : 0 ≤ q / max (max qr qg) qb := div_nonneg hq hMpos.le
    have h2 : q / max (max qr qg) qb ≤ 1 := (div_le_one hMpos).mpr hqM
    constructor <;> nlinarith
  refine ⟨_, _, _, adjustColor_fin qr qg qb qa hMpos.ne', ?_, ?_, ?_, ?_, ?_, ?_⟩
  · exact (key qr hr hrM).1
  · exact (key qr hr hrM).2
  · exact (key qg hg hgM).1
  · exact (key qg hg hgM).2
  · exact (key qb hb hbM).1
  · exact (key qb hb hbM).2

/-- Witness for C5 at `(2, 4, 4, 1.0)`. -/
theorem c5_witness :
    ((0 : ℚ) ≤ 2 ∧ (0 : ℚ) ≤ 4 ∧ (0 : ℚ) ≤ 4 ∧ ¬((2 : ℚ) = 0 ∧ (4 : ℚ) = 0 ∧ (4 : ℚ) = 0)) ∧
    (∃ r g b : ℚ,
      adjustColor ⟨.fin 2, .fin 4, .fin 4, .fin 1⟩ = ⟨.fin r, .fin g, .fin b, .fin 1⟩ ∧
      0.3 ≤ r ∧ r ≤ 0.6 ∧ 0.3 ≤ g ∧ g ≤ 0.6 ∧ 0.3 ≤ b ∧ b ≤ 0.6) :=
  ⟨⟨by norm_num, by norm_num, by norm_num, by norm_num⟩,
   c5_adjusted_channels_in_range 2 4 4 1 (by norm_num) (by norm_num) (by norm_num) (by norm_num)⟩

/-- C9: `adjust_color` is not idempotent — the default cloth colour
`(0, 0.3, 0.3, 1)` adjusts to `(0.3, 0.6, 0.6, 1)`, which adjusts again to
`(0.45, 0.6, 0.6, 1)`. -/
theorem c9_adjust_not_idempotent :
    ∃ c : Color,
      (∃ qr qg qb qa : ℚ, c = ⟨.fin qr, .fin qg, .fin qb, .fin qa⟩ ∧
        0 ≤ qr ∧ 0 ≤ qg ∧ 0 ≤ qb ∧ ¬(qr = 0 ∧ qg = 0 ∧ qb = 0)) ∧
      adjustColor (adjustColor c) ≠ adjustColor c := by
  refine ⟨⟨.fin 0, .fin 0.3, .fin 0.3, .fin 1⟩,
    ⟨0, 0.3, 0.3, 1, rfl, le_refl 0, by norm_num, by norm_num, by norm_num⟩, ?_⟩
  have h1 : adjustColor ⟨.fin 0, .fin 0.3, .fin 0.3, .fin 1⟩ =
      ⟨.fin 0.3, .fin 0.6, .fin 0.6, .fin 1⟩ := by
    rw [adjustColor_fin 0 0.3 0.3 1 (by norm_num [max_def])]
    norm_num [max_def]
  have h2 : adjustColor ⟨.fin 0.3, .fin 0.6, .fin 0.6, .fin 1⟩ =
      ⟨.fin 0.45, .fin 0.6, .fin 0.6, .fin 1⟩ := by
    rw [adjustColor_fin 0.3 0.6 0.6 1 (by norm_num [max_def])]
    norm_num [max_def]
  rw [h1, h2]
  intro h
  have := congrArg Color.r h
  simp only [NpVal.fin.injEq] at this
  norm_num at this

/-! ### Helper lemmas for the exporter's decimal formatting -/

theorem digitsRevAux_length_le (fuel : ℕ) :
    ∀ n k : ℕ, n < 10 ^ k → (digitsRevAux fuel n).length ≤ k := by
  induction fuel with
  | zero => intro n k _; simp [digitsRevAux]
  | succ f ih =>
    intro n k h
    by_cases hn : n = 0
    · simp [digitsRevAux, hn]
    · cases k with
      | zero =>
        simp only [pow_zero, Nat.lt_one_iff] at h
        exact absurd h hn
      | succ k =>
        simp only [digitsRevAux, if_neg hn, List.length_cons]
        have hd : n / 10 < 10 ^ k := by
          rw [Nat.div_lt_iff_lt_mul (by norm_num : 0 < 10)]
          rw [pow_succ] at h
          exact h
        exact Nat.succ_le_succ (ih (n / 10) k hd)

theorem natStr_length_le (n k : ℕ) (h1 : 1 ≤ k) (h : n < 10 ^ k) :
    (natStr n).length ≤ k := by
  by_cases hn : n = 0
  · rw [natStr, if_pos hn]
    exact h1
  · rw [natStr, if_neg hn]
    show ((digitsRev n).reverse.map digitChar).length ≤ k
    rw [List.length_map, List.length_reverse]
    exact digitsRevAux_length_le n n k h

theorem zpad_length (w : ℕ) (s : String) (h : s.length ≤ w) : (zpad w s).length = w := by
  rw [zpad, String.length_append]
  have hrep : (String.mk (List.replicate (w - s.length) '0')).length = w - s.length := by
    show (List.replicate (w - s.length) '0').length = w - s.length
    exact List.length_replicate ..
  omega

/-! ### C6 and C7: the frame exporter -/

/-- C6: the exporter writes exactly one file per frame; the file of frame
`i` is named `{dir}/{base}_{i:04}.obj` with the index zero-padded to four
digits, and contains the frame's vertex lines followed by the face lines,
each face index shifted by `+1`; every coordinate is printed with exactly
six digits after the decimal point. -/
theorem c6_frame_exporter (vertsSeq : List (List Vec3)) (faces : List (ℕ × ℕ × ℕ))
    (dir base : String) :
    (exportAnimatedMeshToObjSequence vertsSeq faces dir base).length = vertsSeq.length ∧
    (∀ i : ℕ, ∀ verts : List Vec3, vertsSeq[i]? = some verts →
      (exportAnimatedMeshToObjSequence vertsSeq faces dir base)[i]? =
        some (dir ++ "/" ++ base ++ "_" ++ zpad 4 (natStr i) ++ ".obj",
              String.join (verts.map vertexLine ++ faces.map faceLine))) ∧
    (∀ i : ℕ, i < 10000 → (zpad 4 (natStr i)).length = 4) ∧
    (∀ q : ℚ, ∃ s t : String, fmt6 q = s ++ "." ++ t ∧ t.length = 6) ∧
    (∀ f : ℕ × ℕ × ℕ, faceLine f =
      "f " ++ natStr (f.1 + 1) ++ " " ++ natStr (f.2.1 + 1) ++ " " ++ natStr (f.2.2 + 1) ++ "\n") := by
  refine ⟨?_, ?_, ?_, ?_, fun f => rfl⟩
  · simp [exportAnimatedMeshToObjSequence, List.enum_length]
  · intro i verts h
    simp only [exportAnimatedMeshToObjSequence, List.getElem?_map, List.getElem?_enum, h,
      Option.map_some']
    rfl
  · intro i hi
    exact zpad_length 4 (natStr i) (natStr_length_le i 4 (by norm_num) (by norm_num; exact hi))
  · intro q
    refine ⟨(if (round (q * 1000000) : ℤ) < 0 then "-" else "") ++
      natStr ((round (q * 1000000) : ℤ).natAbs / 1000000),
      zpad 6 (natStr ((round (q * 1000000) : ℤ).natAbs % 1000000)), rfl, ?_⟩
    refine zpad_length 6 _ (natStr_length_le _ 6 (by norm_num) ?_)
    have : ((round (q * 1000000) : ℤ).natAbs % 1000000) < 1000000 :=
      Nat.mod_lt _ (by norm_num)
    norm_num
    exact this

/-- Witness for C6 on a 2-frame, 3-vertex, 1-face mesh. -/
theorem c6_witness :
    (exportAnimatedMeshToObjSequence
        [[⟨0,0,0⟩, ⟨1,0,0⟩, ⟨0,1,0⟩], [⟨0,0,1⟩, ⟨1,1,1⟩, ⟨2,0,0⟩]] [(0,1,2)] "out" "frame").length = 2 ∧
    (exportAnimatedMeshToObjSequence
        [[⟨0,0,0⟩, ⟨1,0,0⟩, ⟨0,1,0⟩], [⟨0,0,1⟩, ⟨1,1,1⟩, ⟨2,0,0⟩]] [(0,1,2)] "out" "frame")[1]? =
      some ("out" ++ "/" ++ "frame" ++ "_" ++ zpad 4 (natStr 1) ++ ".obj",
            String.join (([(⟨0,0,1⟩ : Vec3), ⟨1,1,1⟩, ⟨2,0,0⟩].map vertexLine) ++
              ([(0,1,2)].map faceLine))) :=
  ⟨(c6_frame_exporter [[⟨0,0,0⟩, ⟨1,0,0⟩, ⟨0,1,0⟩], [⟨0,0,1⟩, ⟨1,1,1⟩, ⟨2,0,0⟩]]
      [(0,1,2)] "out" "frame").1,
   (c6_frame_exporter [[⟨0,0,0⟩, ⟨1,0,0⟩, ⟨0,1,0⟩], [⟨0,0,1⟩, ⟨1,1,1⟩, ⟨2,0,0⟩]]
      [(0,1,2)] "out" "frame").2.1 1 [⟨0,0,1⟩, ⟨1,1,1⟩, ⟨2,0,0⟩] rfl⟩

/-- C7: the exporter is deterministic — two runs in arbitrary ambient
states (clock, process id) over the same input arrays produce byte-identical
file lists, because the written bytes are a function of the input arrays
alone. -/
theorem c7_export_deterministic (e1 e2 : RunEnv) (vertsSeq : List (List Vec3))
    (faces : List (ℕ × ℕ × ℕ)) (dir base : String) :
    exportRun e1 vertsSeq faces dir base = exportRun e2 vertsSeq faces dir base := rfl

/-! ### C8 and C10: the sequence builder -/

/-- C8: when the cloth face array of a rollout is per-frame (3-dim), the
builder uses frame 0's faces as the cloth topology — and, when an obstacle
with a per-frame face array is present, frame 0's obstacle faces likewise;
replacing the later face frames of either array never changes the output. -/
theorem c8_frame0_topology
    (td : TrajDict) (fss : List (List (ℕ × ℕ × ℕ))) (f0 : List (ℕ × ℕ × ℕ))
    (xShift yShift : ℚ) (clothColor : Option Color) (name : Option String)
    (obstacleOpacity clothOpacity : ℚ)
    (hc : td.cloth_faces = .d3 fss) (h0 : fss.head? = some f0) :
    (∀ ms, addSeq td xShift yShift clothColor name obstacleOpacity clothOpacity = .ok ms →
      ∃ m0 rest, ms = m0 :: rest ∧ m0.faces = .faces f0) ∧
    (∀ gss g0 ms, td.obstacle_faces = some (.d3 gss) → gss.head? = some g0 →
      addSeq td xShift yShift clothColor name obstacleOpacity clothOpacity = .ok ms →
      ∃ m0 m1, ms = [m0, m1] ∧ m0.faces = .faces f0 ∧ m1.faces = .faces g0) ∧
    (∀ tail2,
      addSeq { td with cloth_faces := .d3 (f0 :: tail2) } xShift yShift clothColor name
          obstacleOpacity clothOpacity =
        addSeq td xShift yShift clothColor name obstacleOpacity clothOpacity) ∧
    (∀ gss g0 tail3, td.obstacle_faces = some (.d3 gss) → gss.head? = some g0 →
      addSeq { td with obstacle_faces := some (.d3 (g0 :: tail3)) } xShift yShift clothColor name
          obstacleOpacity clothOpacity =
        addSeq td xShift yShift clothColor name obstacleOpacity clothOpacity) := by
  refine ⟨?_, ?_, ?_, ?_⟩
  · intro ms hms
    cases hof : td.obstacle_faces with
    | none =>
      simp only [addSeq, hof, hc, h0, liftOpt, Option.map_some'] at hms
      cases hpm : placeMeshes td.pred none xShift yShift with
      | none => simp [hpm] at hms
      | some val =>
        obtain ⟨pos2, o2⟩ := val
        simp only [hpm] at hms
        cases hms
        exact ⟨_, _, rfl, rfl⟩
    | some ofa =>
      cases hop : td.obstacle with
      | none => simp [addSeq, hof, hop, liftOpt] at hms
      | some op =>
        simp only [addSeq, hof, hop, hc, h0, liftOpt, Option.map_some'] at hms
        cases hidx : indexFirst ofa with
        | none => simp [hidx, liftOpt] at hms
        | some ofn =>
          simp only [hidx, liftOpt] at hms
          cases hpm : placeMeshes td.pred (some op) xShift yShift with
          | none => simp [hpm] at hms
          | some val =>
            obtain ⟨pos2, o2⟩ := val
            cases o2 with
            | none => simp [hpm] at hms
            | some op2 =>
              simp only [hpm] at hms
              cases hms
              exact ⟨_, _, rfl, rfl⟩
  · intro gss g0 ms hof h0g hms
    cases hop : td.obstacle with
    | none => simp [addSeq, hof, hop, liftOpt] at hms
    | some op =>
      simp only [addSeq, hof, hop, hc, h0, liftOpt, Option.map_some', indexFirst, h0g] at hms
      cases hpm : placeMeshes td.pred (some op) xShift yShift with
      | none => simp [hpm] at hms
      | some val =>
        obtain ⟨pos2, o2⟩ := val
        cases o2 with
        | none => simp [hpm] at hms
        | some op2 =>
          simp only [hpm] at hms
          cases hms
          exact ⟨_, _, rfl, rfl, rfl⟩
  · intro tail2
    cases hof : td.obstacle_faces with
    | none => simp [addSeq, hof, hc, h0, liftOpt]
    | some ofa =>
      cases hop : td.obstacle with
      | none => simp [addSeq, hof, hop, liftOpt]
      | some op => simp [addSeq, hof, hop, hc, h0, liftOpt]
  · intro gss g0 tail3 hof h0g
    cases hop : td.obstacle with
    | none => simp [addSeq, hof, hop, liftOpt]
    | some op => simp [addSeq, hof, hop, hc, h0, h0g, liftOpt, indexFirst]

/-- Witness for C8 on `trajDictA` (cloth faces `[[(0,1,2)],[(9,9,9)]]`,
obstacle faces `[[(3,4,5)],[(7,7,7)]]`, both per-frame). -/
theorem c8_witness :
    (trajDictA.cloth_faces = .d3 [[(0,1,2)], [(9,9,9)]]) ∧
    ([[(0,1,2)], [(9,9,9)]] : List (List (ℕ × ℕ × ℕ))).head? = some [(0,1,2)] ∧
    ((∀ ms, addSeq trajDictA 0 0 none none 1 1 = .ok ms →
        ∃ m0 rest, ms = m0 :: rest ∧ m0.faces = .faces [(0,1,2)]) ∧
     (∀ gss g0 ms, trajDictA.obstacle_faces = some (.d3 gss) → gss.head? = some g0 →
        addSeq trajDictA 0 0 none none 1 1 = .ok ms →
        ∃ m0 m1, ms = [m0, m1] ∧ m0.faces = .faces [(0,1,2)] ∧ m1.faces = .faces g0) ∧
     (∀ tail2,
        addSeq { trajDictA with cloth_faces := .d3 ([(0,1,2)] :: tail2) } 0 0 none none 1 1 =
          addSeq trajDictA 0 0 none none 1 1) ∧
     (∀ gss g0 tail3, trajDictA.obstacle_faces = some (.d3 gss) → gss.head? = some g0 →
        addSeq { trajDictA with obstacle_faces := some (.d3 (g0 :: tail3)) } 0 0 none none 1 1 =
          addSeq trajDictA 0 0 none none 1 1)) :=
  ⟨rfl, rfl,
   c8_frame0_topology trajDictA [[(0,1,2)], [(9,9,9)]] [(0,1,2)] 0 0 none none 1 1 rfl rfl⟩

/-- C10: the builder takes the presence of the `obstacle_faces` key as the
obstacle test.  Without that key the `obstacle` key is never read and the
output is the single cloth mesh; with that key but without an `obstacle`
key the builder fails with the `KeyError` for `obstacle`. -/
theorem c10_obstacle_key_detection
    (td : TrajDict) (xShift yShift : ℚ) (clothColor : Option Color) (name : Option String)
    (obstacleOpacity clothOpacity : ℚ) :
    (td.obstacle_faces = none →
      addSeq td xShift yShift clothColor name obstacleOpacity clothOpacity =
        addSeq { td with obstacle := none } xShift yShift clothColor name obstacleOpacity
          clothOpacity ∧
      (∀ ms, addSeq td xShift yShift clothColor name obstacleOpacity clothOpacity = .ok ms →
        ms.length = 1)) ∧
    (∀ ofa, td.obstacle_faces = some ofa → td.obstacle = none →
      addSeq td xShift yShift clothColor name obstacleOpacity clothOpacity =
        .error "KeyError: obstacle") := by
  refine ⟨fun h => ⟨?_, ?_⟩, fun ofa hof hop => ?_⟩
  · simp [addSeq, h]
  · intro ms hms
    simp only [addSeq, h] at hms
    cases hcf : td.cloth_faces with
    | d3 fss =>
      cases hh : fss.head? with
      | none => simp [hcf, hh, liftOpt] at hms
      | some f0 =>
        simp only [hcf, hh, liftOpt, Option.map_some'] at hms
        cases hpm : placeMeshes td.pred none xShift yShift with
        | none => simp [hpm] at hms
        | some val =>
          obtain ⟨pos2, o2⟩ := val
          simp only [hpm] at hms
          cases hms
          rfl
    | d2 fs =>
      simp only [hcf, liftOpt] at hms
      cases hpm : placeMeshes td.pred none xShift yShift with
      | none => simp [hpm] at hms
      | some val =>
        obtain ⟨pos2, o2⟩ := val
        simp only [hpm] at hms
        cases hms
        rfl
  · simp [addSeq, hof, hop, liftOpt]

/-- Witness for C10: `trajDictB` (has `obstacle`, lacks `obstacle_faces`)
builds cloth-only and ignores the `obstacle` entry; `trajDictC` (has
`obstacle_faces`, lacks `obstacle`) fails with the `obstacle` key error. -/
theorem c10_witness :
    (trajDictB.obstacle_faces = none ∧
      (addSeq trajDictB 0 0 none none 1 1 =
        addSeq { trajDictB with obstacle := none } 0 0 none none 1 1 ∧
       (∀ ms, addSeq trajDictB 0 0 none none 1 1 = .ok ms → ms.length = 1))) ∧
    (trajDictC.obstacle_faces = some (.d2 [(3,4,5)]) ∧ trajDictC.obstacle = none ∧
      addSeq trajDictC 0 0 none none 1 1 = .error "KeyError: obstacle") :=
  ⟨⟨rfl, (c10_obstacle_key_detection trajDictB 0 0 none none 1 1).1 rfl⟩,
   ⟨rfl, rfl, (c10_obstacle_key_detection trajDictC 0 0 none none 1 1).2 (.d2 [(3,4,5)]) rfl rfl⟩⟩

end HoodShow
